import Mathlib

/-!
Shallow embedding of `app.py` (LIP-DECODER-): session-state navigation,
the "ANALYZE LIP MOVEMENTS" processing pipeline on page 4, and
`record_av_segment` (live audio/video capture plus the MoviePy merge step).

External collaborators (`visual_feature_extraction`, `deep_lip_decode`,
`translate_content` from `utils`, the camera, the microphone, the Streamlit
UI, MoviePy) are parameters of the embedded functions; observable behaviour
(UI events, progress events, collaborator calls, file operations) is
recorded as explicit event traces.
-/

namespace LipDecoder

/-! ## Session state and navigation (app.py lines 20-86) -/

/-- `st.session_state` fields initialised at lines 21-25 of `app.py`:
`page = 1`, `input_method = None`, `target_lang = "English"`,
`target_lang_code = 'en'`, `video_path = None`. -/
structure SessionState where
  page : Int
  input_method : Option String
  target_lang : String
  target_lang_code : String
  video_path : Option String
deriving DecidableEq, Repr

/-- The initial session state (lines 21-25). -/
def initState : SessionState :=
  { page := 1, input_method := none, target_lang := "English",
    target_lang_code := "en", video_path := none }

/-- `def next_page(): st.session_state.page += 1` (line 66). -/
def next_page (s : SessionState) : SessionState :=
  { s with page := s.page + 1 }

/-- `def prev_page(): st.session_state.page -= 1` (line 69). -/
def prev_page (s : SessionState) : SessionState :=
  { s with page := s.page - 1 }

/-- `reset_app` (lines 72-75): sets `page = 1`, `video_path = None`,
`input_method = None`; touches nothing else. -/
def reset_app (s : SessionState) : SessionState :=
  { s with page := 1, video_path := none, input_method := none }

/-- `set_input` (lines 78-80): stores the method, then `next_page()`. -/
def set_input (method : String) (s : SessionState) : SessionState :=
  next_page { s with input_method := some method }

/-- `set_language` (lines 83-86): stores name and code, then `next_page()`. -/
def set_language (name code : String) (s : SessionState) : SessionState :=
  next_page { s with target_lang := name, target_lang_code := code }

/-! ## The page-4 ANALYZE handler (app.py lines 219-254) -/

/-- Observable events of the ANALYZE button handler: Streamlit warnings,
progress-bar updates `(percent, label)`, calls into the three collaborators,
clearing the bar, and rendering the result markdown. -/
inductive AnalyzeEvent where
  | warn (msg : String)
  | progress (pct : Nat) (label : String)
  | callVisual (path : String)
  | callDecode (path : String)
  | callTranslate (text : String) (lang : String)
  | barEmpty
  | showResult (translated : String) (raw : String)
deriving DecidableEq, Repr

/-- The body of lines 223-254: runs when a video path is present.
Mirrors the source order exactly:
`st.progress(0, "Initializing 3D-CNN Pipeline...")`;
`visual_feature_extraction(path)`; `bar.progress(40, "Extracting Lip
Landmarks & Geometry...")`; `bar.progress(70, "Mapping Spatiotemporal
Features...")`; `raw_text = deep_lip_decode(path)`;
`bar.progress(90, f"Translating to {target_lang}...")`;
`translated = translate_content(raw_text, target_lang_code)`;
`bar.progress(100, "Complete!")`; `bar.empty()`; result markdown.
The visual collaborator's return value is bound and discarded, as in the
source. -/
def analyzeRun {α : Type} (visual : String → α) (decode : String → String)
    (translate : String → String → String)
    (path : String) (targetLang targetLangCode : String) :
    List AnalyzeEvent × (String × String) :=
  let _features := visual path
  let raw := decode path
  let translated := translate raw targetLangCode
  ([AnalyzeEvent.progress 0 "Initializing 3D-CNN Pipeline...",
    AnalyzeEvent.callVisual path,
    AnalyzeEvent.progress 40 "Extracting Lip Landmarks & Geometry...",
    AnalyzeEvent.progress 70 "Mapping Spatiotemporal Features...",
    AnalyzeEvent.callDecode path,
    AnalyzeEvent.progress 90 ("Translating to " ++ targetLang ++ "..."),
    AnalyzeEvent.callTranslate raw targetLangCode,
    AnalyzeEvent.progress 100 "Complete!",
    AnalyzeEvent.barEmpty,
    AnalyzeEvent.showResult translated raw],
   (raw, translated))

/-- The `if st.button("ANALYZE LIP MOVEMENTS")` handler (lines 219-254).
`videoPath` models `st.session_state.video_path` (`None`, or a string —
empty strings are falsy in Python, so `not st.session_state.video_path`
triggers the warning for both `None` and `""`).  Returns the event trace
and, when the pipeline ran, the `(raw_text, translated)` pair. -/
def analyzeHandler {α : Type} (visual : String → α) (decode : String → String)
    (translate : String → String → String)
    (videoPath : Option String) (targetLang targetLangCode : String) :
    List AnalyzeEvent × Option (String × String) :=
  match videoPath with
  | none => ([AnalyzeEvent.warn "Please provide a video first."], none)
  | some p =>
    if p = "" then ([AnalyzeEvent.warn "Please provide a video first."], none)
    else
      let r := analyzeRun visual decode translate p targetLang targetLangCode
      (r.1, some r.2)

/-- Projection of a progress event to its `(percent, label)` payload. -/
def progressOf : AnalyzeEvent → Option (Nat × String)
  | AnalyzeEvent.progress pct label => some (pct, label)
  | _ => none

/-- Is this event a call into one of the three collaborators? -/
def isCollaboratorCall : AnalyzeEvent → Bool
  | AnalyzeEvent.callVisual _ => true
  | AnalyzeEvent.callDecode _ => true
  | AnalyzeEvent.callTranslate _ _ => true
  | _ => false

/-- `a` occurs at a strictly earlier position than `b` in `l`. -/
def occursBefore (l : List AnalyzeEvent) (a b : AnalyzeEvent) : Prop :=
  ∃ i : Fin l.length, ∃ j : Fin l.length, (i : Nat) < (j : Nat) ∧
    l.get i = a ∧ l.get j = b

instance (l : List AnalyzeEvent) (a b : AnalyzeEvent) :
    Decidable (occursBefore l a b) := by
  unfold occursBefore; infer_instance

/-! ## record_av_segment (app.py lines 90-151) -/

/-- Observable events of `record_av_segment`: audio recording started with a
given sample count (`sd.rec`), a frame written to the video writer
(`out.write`), a live-preview render of a frame (`st_ph.image`), releasing
the camera (`cap.release`), releasing the writer (`out.release`), joining the
audio task (`sd.wait`), persisting the WAV (`write(temp_audio.name, fs,
myrecording)`), clearing the preview placeholder (`st_ph.empty`), Streamlit
info and error messages, and a best-effort `os.remove`. -/
inductive CapEvent where
  | audioStarted (samples : Nat)
  | frameWritten (k : Nat)
  | previewShown (k : Nat)
  | camReleased
  | writerReleased
  | audioWaited
  | wavWritten (path : String) (samples : Nat)
  | previewCleared
  | uiInfo (msg : String)
  | uiError (msg : String)
  | removed (path : String)
deriving DecidableEq, Repr

/-- The environment the capture loop runs in: `elapsed k` is the value of
`time.time() - start_time` at the `k`-th check of the `while` condition
(line 115), `readOk k` is whether the `k`-th `cap.read()` returns
`ret = True` (line 116), and `preview k` models the `k`-th
`st_ph.image(cv2.cvtColor(frame, ...))` call (line 119), which — like any
Python call — either returns or raises an exception carrying a message. -/
structure CaptureEnv where
  elapsed : Nat → ℚ
  readOk : Nat → Bool
  preview : Nat → Except String Unit

instance : DecidableEq (Except String Unit)
  | Except.ok u, Except.ok v =>
    isTrue (by cases u; cases v; rfl)
  | Except.error e, Except.error f =>
    if h : e = f then isTrue (by rw [h])
    else isFalse (by intro hh; cases hh; exact h rfl)
  | Except.ok _, Except.error _ => isFalse (by intro h; cases h)
  | Except.error _, Except.ok _ => isFalse (by intro h; cases h)

/-- One MoviePy merge attempt (the `try:` block, lines 131-148).  Each
field models one Python call that either returns or raises:
`VideoFileClip(temp_vid.name)`, `AudioFileClip(temp_audio.name)`,
`video_clip.set_audio(audio_clip)`, `final_clip.write_videofile(...)`,
`video_clip.close()`, `audio_clip.close()`.  `removeVidOk`/`removeAudOk`
are whether the two `os.remove` calls succeed (their failures are swallowed
by the inner `try/except: pass`, lines 142-146). -/
structure MuxEnv where
  openVideo : Except String Unit
  openAudio : Except String Unit
  attach : Except String Unit
  encode : Except String Unit
  closeVideo : Except String Unit
  closeAudio : Except String Unit
  removeVidOk : Bool
  removeAudOk : Bool

/-- The body of the `try:` block (lines 131-148) as a monadic composition
in `Except`: any raising step short-circuits, propagating the exception to
the enclosing handler.  On success it yields the events of the block
(best-effort removals) and the value returned, `final_output.name`. -/
def mergeTryBody (menv : MuxEnv) (tempVid tempAudio finalOut : String) :
    Except String (List CapEvent × String) :=
  match menv.openVideo with
  | Except.error e => Except.error e
  | Except.ok _ =>
    match menv.openAudio with
    | Except.error e => Except.error e
    | Except.ok _ =>
      match menv.attach with
      | Except.error e => Except.error e
      | Except.ok _ =>
        match menv.encode with
        | Except.error e => Except.error e
        | Except.ok _ =>
          match menv.closeVideo with
          | Except.error e => Except.error e
          | Except.ok _ =>
            match menv.closeAudio with
            | Except.error e => Except.error e
            | Except.ok _ =>
              let removals :=
                (if menv.removeVidOk then [CapEvent.removed tempVid]
                 else []) ++
                (if menv.removeVidOk && menv.removeAudOk then
                   [CapEvent.removed tempAudio]
                 else [])
              Except.ok (removals, finalOut)

/-- The merge step (lines 130-151): runs the `try:` body; on any exception
`e` the `except Exception as e:` handler reports
`st.error(f"Merge Error: {e}")` and returns `temp_vid.name` (the silent
raw video) instead of raising. -/
def mergeStep (menv : MuxEnv) (tempVid tempAudio finalOut : String) :
    List CapEvent × String :=
  match mergeTryBody menv tempVid tempAudio finalOut with
  | Except.ok r => r
  | Except.error e => ([CapEvent.uiError ("Merge Error: " ++ e)], tempVid)

/-- The recording loop (lines 114-119), by iteration count with fuel.
`captureLoop env duration fuel k = some (evs, n, r)` means the loop,
entered at iteration `k`, terminates at iteration `n` having emitted `evs`;
`r = some e` means iteration `n`'s body raised exception `e` (from the
preview call) so control leaves `record_av_segment` entirely, while
`r = none` means the loop exited normally (condition false, or `ret` false
causing `break`).  `none` means the loop did not terminate within `fuel`
iterations.  Body order mirrors the source: check `elapsed < duration`;
`cap.read()`; on `not ret` break; `out.write(frame)`; `st_ph.image(...)`. -/
def captureLoop (env : CaptureEnv) (duration : ℚ) :
    Nat → Nat → Option (List CapEvent × Nat × Option String)
  | 0, _ => none
  | fuel + 1, k =>
    if env.elapsed k < duration then
      if env.readOk k then
        match env.preview k with
        | Except.error e => some ([CapEvent.frameWritten k], k, some e)
        | Except.ok _ =>
          match captureLoop env duration fuel (k + 1) with
          | none => none
          | some (evs, n, r) =>
            some (CapEvent.frameWritten k :: CapEvent.previewShown k :: evs,
                  n, r)
      else some ([], k, none)
    else some ([], k, none)

/-- `fs = 44100` (line 92). -/
def sampleRate : Nat := 44100

/-- The sample count requested from `sd.rec`: `int(duration * fs)`
(line 95).  Python `int()` truncates toward zero; for `duration > 0` this
is the floor of `duration * 44100`. -/
def audioSampleCount (duration : ℚ) : Nat :=
  (Int.floor (duration * (sampleRate : ℚ))).toNat

/-- The straight-line events after the loop (lines 122-128): `cap.release()`,
`out.release()`, `sd.wait()`, `write(temp_audio.name, fs, myrecording)`
(the full-duration audio buffer persisted to WAV), `st_ph.empty()`,
`st.info("Processing Media...")`. -/
def postLoopEvents (tempAudio : String) (duration : ℚ) : List CapEvent :=
  [CapEvent.camReleased, CapEvent.writerReleased, CapEvent.audioWaited,
   CapEvent.wavWritten tempAudio (audioSampleCount duration),
   CapEvent.previewCleared, CapEvent.uiInfo "Processing Media..."]

/-- `record_av_segment` (lines 90-151).  Returns `none` if the loop fuel
ran out (the loop has not yet terminated); otherwise the full event trace
paired with `Except.error e` when an exception propagated to the caller
(no code after the raise point runs — in particular no release), or
`Except.ok path` with the returned path.  Source order: `sd.rec` (audio
starts for the full duration, line 95); camera/writer setup; the loop;
`cap.release()`; `out.release()`; `sd.wait()`; `write(temp_audio.name, fs,
myrecording)`; `st_ph.empty()`; `st.info("Processing Media...")`; the
merge step. -/
def record_av_segment (env : CaptureEnv) (menv : MuxEnv) (duration : ℚ)
    (fuel : Nat) (tempVid tempAudio finalOut : String) :
    Option (List CapEvent × Except String String) :=
  match captureLoop env duration fuel 0 with
  | none => none
  | some (evs, _, some e) =>
    some (CapEvent.audioStarted (audioSampleCount duration) :: evs,
          Except.error e)
  | some (evs, _, none) =>
    let m := mergeStep menv tempVid tempAudio finalOut
    some (CapEvent.audioStarted (audioSampleCount duration) ::
            (evs ++ postLoopEvents tempAudio duration ++ m.1),
          Except.ok m.2)

/-- The page-4 live-input branch (line 211) starts capture with
`record_av_segment(duration=60)`. -/
def liveStartRecording (env : CaptureEnv) (menv : MuxEnv) (fuel : Nat)
    (tempVid tempAudio finalOut : String) :
    Option (List CapEvent × Except String String) :=
  record_av_segment env menv 60 fuel tempVid tempAudio finalOut

/-- The info text shown next to the live recorder (line 208). -/
def liveBranchInfoText : String := "Records for 2 MINUTES."

/-- Does the event report an error or warning to the user?  Only
`st.error`/`st.warning`-style events qualify (`st.info` is a neutral
status message). -/
def isErrorEvent : CapEvent → Bool
  | CapEvent.uiError _ => true
  | _ => false

/-- The event trace the loop produces for `c` successful iterations
starting at iteration `k`: each iteration writes the frame, then shows the
preview. -/
def loopTrace : Nat → Nat → List CapEvent
  | _, 0 => []
  | k, c + 1 =>
    CapEvent.frameWritten k :: CapEvent.previewShown k :: loopTrace (k + 1) c

/-- A camera/clock environment in which the first two reads succeed (at
elapsed times 0 and 30 seconds) and time has passed 100 seconds by the
third check. -/
def envSteady : CaptureEnv :=
  { elapsed := fun k => if k = 0 then (0 : ℚ) else if k = 1 then 30 else 100,
    readOk := fun _ => true,
    preview := fun _ => Except.ok () }

/-- An environment in which every `cap.read()` fails immediately
(`ret = False` at iteration 0, elapsed time 0). -/
def envReadFail0 : CaptureEnv :=
  { elapsed := fun _ => (0 : ℚ),
    readOk := fun _ => false,
    preview := fun _ => Except.ok () }

/-- An environment in which reads 0 and 1 succeed and read 2 fails, all
well inside the duration (elapsed time stays 0). -/
def envReadFail2 : CaptureEnv :=
  { elapsed := fun _ => (0 : ℚ),
    readOk := fun k => decide (k < 2),
    preview := fun _ => Except.ok () }

/-- An environment in which the first preview render
(`st_ph.image`, line 119) raises an exception. -/
def envPreviewRaise : CaptureEnv :=
  { elapsed := fun _ => (0 : ℚ),
    readOk := fun _ => true,
    preview := fun _ => Except.error "boom" }

/-- A merge environment in which every MoviePy call succeeds and both
`os.remove` calls succeed. -/
def muxAllOk : MuxEnv :=
  { openVideo := Except.ok (), openAudio := Except.ok (),
    attach := Except.ok (), encode := Except.ok (),
    closeVideo := Except.ok (), closeAudio := Except.ok (),
    removeVidOk := true, removeAudOk := true }

/-- A merge environment in which `write_videofile` raises. -/
def muxFailEncode : MuxEnv :=
  { openVideo := Except.ok (), openAudio := Except.ok (),
    attach := Except.ok (), encode := Except.error "boom",
    closeVideo := Except.ok (), closeAudio := Except.ok (),
    removeVidOk := true, removeAudOk := true }

/-- The rational `1/100000`, written as a normalised fraction so that its
numerator and denominator are literals. -/
def tinyDuration : ℚ := ⟨1, 100000, by norm_num, Nat.coprime_one_left _⟩

/-! ## Helper lemmas -/

/-- With a non-empty path, the ANALYZE handler's trace and result in
closed form. -/
lemma analyzeHandler_some {α : Type} (visual : String → α)
    (decode : String → String) (translate : String → String → String)
    (p targetLang code : String) (hp : p ≠ "") :
    analyzeHandler visual decode translate (some p) targetLang code =
      ([AnalyzeEvent.progress 0 "Initializing 3D-CNN Pipeline...",
        AnalyzeEvent.callVisual p,
        AnalyzeEvent.progress 40 "Extracting Lip Landmarks & Geometry...",
        AnalyzeEvent.progress 70 "Mapping Spatiotemporal Features...",
        AnalyzeEvent.callDecode p,
        AnalyzeEvent.progress 90 ("Translating to " ++ targetLang ++ "..."),
        AnalyzeEvent.callTranslate (decode p) code,
        AnalyzeEvent.progress 100 "Complete!",
        AnalyzeEvent.barEmpty,
        AnalyzeEvent.showResult (translate (decode p) code) (decode p)],
       some (decode p, translate (decode p) code)) := by
  simp [analyzeHandler, analyzeRun, hp]

/-- Every frame the loop writes was read at a checked elapsed time below
the duration, with a successful `cap.read()`. -/
lemma captureLoop_frame_elapsed (env : CaptureEnv) (d : ℚ) :
    ∀ fuel k evs n r, captureLoop env d fuel k = some (evs, n, r) →
      ∀ j, CapEvent.frameWritten j ∈ evs →
        env.elapsed j < d ∧ env.readOk j = true := by
  intro fuel
  induction fuel with
  | zero =>
    intro k evs n r h
    simp [captureLoop] at h
  | succ fuel ih =>
    intro k evs n r h j hj
    rw [captureLoop] at h
    by_cases h1 : env.elapsed k < d
    · rw [if_pos h1] at h
      by_cases h2 : env.readOk k = true
      · rw [if_pos h2] at h
        cases hp : env.preview k with
        | error e =>
          rw [hp] at h
          simp only [Option.some.injEq, Prod.mk.injEq] at h
          obtain ⟨hevs, -, -⟩ := h
          rw [← hevs] at hj
          simp only [List.mem_singleton, CapEvent.frameWritten.injEq] at hj
          subst hj
          exact ⟨h1, h2⟩
        | ok u =>
          rw [hp] at h
          cases hrec : captureLoop env d fuel (k + 1) with
          | none => rw [hrec] at h; cases h
          | some trip =>
            obtain ⟨evs', n', r'⟩ := trip
            rw [hrec] at h
            simp only [Option.some.injEq, Prod.mk.injEq] at h
            obtain ⟨hevs, -, -⟩ := h
            rw [← hevs] at hj
            simp only [List.mem_cons] at hj
            rcases hj with hj | hj | hj
            · cases hj; exact ⟨h1, h2⟩
            · cases hj
            · exact ih (k + 1) evs' n' r' hrec j hj
      · rw [if_neg h2] at h
        simp only [Option.some.injEq, Prod.mk.injEq] at h
        obtain ⟨hevs, -, -⟩ := h
        rw [← hevs] at hj
        cases hj
    · rw [if_neg h1] at h
      simp only [Option.some.injEq, Prod.mk.injEq] at h
      obtain ⟨hevs, -, -⟩ := h
      rw [← hevs] at hj
      cases hj

/-- Membership of frame-write events in a loop trace. -/
lemma loopTrace_frame_mem :
    ∀ c k j, CapEvent.frameWritten j ∈ loopTrace k c ↔ k ≤ j ∧ j < k + c := by
  intro c
  induction c with
  | zero => intro k j; simp [loopTrace]
  | succ c ih =>
    intro k j
    simp only [loopTrace, List.mem_cons, ih]
    constructor
    · rintro (h | h | ⟨h1, h2⟩)
      · cases h; omega
      · cases h
      · omega
    · rintro ⟨h1, h2⟩
      by_cases hk : j = k
      · exact Or.inl (by rw [hk])
      · exact Or.inr (Or.inr ⟨by omega, by omega⟩)

/-- Loop traces contain no user-facing error or warning events. -/
lemma loopTrace_filter_error :
    ∀ c k, (loopTrace k c).filter isErrorEvent = [] := by
  intro c
  induction c with
  | zero => intro k; simp [loopTrace]
  | succ c ih => intro k; simp [loopTrace, isErrorEvent, ih]

/-- If the `n`-th iteration is the first that stops the loop (`ret` false,
or time expired) and every earlier iteration read and previewed
successfully inside the time bound, the loop from `k ≤ n` terminates
normally at `n` with the trace of iterations `k, …, n - 1`. -/
lemma captureLoop_run (env : CaptureEnv) (d : ℚ) (n : Nat)
    (hn : env.readOk n = false ∨ ¬env.elapsed n < d)
    (hprev : ∀ j, j < n →
      env.elapsed j < d ∧ env.readOk j = true ∧ env.preview j = Except.ok ()) :
    ∀ fuel k, k ≤ n → n < k + fuel →
      captureLoop env d fuel k = some (loopTrace k (n - k), n, none) := by
  intro fuel
  induction fuel with
  | zero => intro k hk hfuel; omega
  | succ fuel ih =>
    intro k hk hfuel
    rw [captureLoop]
    rcases Nat.eq_or_lt_of_le hk with hkn | hkn
    · subst hkn
      rcases hn with hn | hn
      · by_cases h1 : env.elapsed k < d
        · rw [if_pos h1, if_neg (by simp [hn]), Nat.sub_self]
          rfl
        · rw [if_neg h1, Nat.sub_self]
          rfl
      · rw [if_neg hn, Nat.sub_self]
        rfl
    · obtain ⟨he, hr, hpv⟩ := hprev k hkn
      rw [if_pos he, if_pos hr, hpv,
        ih (k + 1) (by omega) (by omega)]
      have : n - k = (n - (k + 1)) + 1 := by omega
      rw [this, loopTrace]

/-- The value a successful merge try-body returns: the best-effort removal
events and `final_output.name`. -/
lemma mergeTryBody_ok_shape (menv : MuxEnv) (tv ta fo : String)
    (evs : List CapEvent) (p : String)
    (h : mergeTryBody menv tv ta fo = Except.ok (evs, p)) :
    p = fo ∧
    evs = (if menv.removeVidOk then [CapEvent.removed tv] else []) ++
      (if menv.removeVidOk && menv.removeAudOk then [CapEvent.removed ta]
       else []) := by
  obtain ⟨ov, oa, att, en, cv, ca, rv, ra⟩ := menv
  cases ov <;> cases oa <;> cases att <;> cases en <;> cases cv <;>
    cases ca <;> simp_all [mergeTryBody]

/-- The merge step never emits a frame-write event. -/
lemma mergeStep_no_frame (menv : MuxEnv) (tv ta fo : String) (j : Nat) :
    CapEvent.frameWritten j ∉ (mergeStep menv tv ta fo).1 := by
  unfold mergeStep
  cases h : mergeTryBody menv tv ta fo with
  | error e => simp
  | ok v =>
    obtain ⟨evs, p⟩ := v
    obtain ⟨-, hevs⟩ := mergeTryBody_ok_shape menv tv ta fo evs p h
    subst hevs
    split_ifs <;> simp

/-- A successful (non-raising) run of `record_av_segment` decomposes into
the loop trace, the post-loop events, and the merge-step events. -/
lemma record_ok_spec (env : CaptureEnv) (menv : MuxEnv) (d : ℚ)
    (fuel : Nat) (tv ta fo : String) (E : List CapEvent) (p : String)
    (h : record_av_segment env menv d fuel tv ta fo = some (E, Except.ok p)) :
    ∃ evs n, captureLoop env d fuel 0 = some (evs, n, none) ∧
      E = CapEvent.audioStarted (audioSampleCount d) ::
            (evs ++ postLoopEvents ta d ++ (mergeStep menv tv ta fo).1) ∧
      p = (mergeStep menv tv ta fo).2 := by
  unfold record_av_segment at h
  cases hc : captureLoop env d fuel 0 with
  | none => rw [hc] at h; cases h
  | some trip =>
    obtain ⟨evs, n, r⟩ := trip
    rw [hc] at h
    cases r with
    | some e => simp at h
    | none =>
      simp only [Option.some.injEq, Prod.mk.injEq, Except.ok.injEq] at h
      exact ⟨evs, n, rfl, h.1.symm, h.2.symm⟩

/-- Every frame written during a terminating `record_av_segment` run was
read at an elapsed time strictly below the requested duration. -/
lemma record_frame_elapsed (env : CaptureEnv) (menv : MuxEnv) (d : ℚ)
    (fuel : Nat) (tv ta fo : String) (E : List CapEvent)
    (r : Except String String)
    (h : record_av_segment env menv d fuel tv ta fo = some (E, r))
    (j : Nat) (hj : CapEvent.frameWritten j ∈ E) :
    env.elapsed j < d ∧ env.readOk j = true := by
  unfold record_av_segment at h
  cases hc : captureLoop env d fuel 0 with
  | none => rw [hc] at h; cases h
  | some trip =>
    obtain ⟨evs, n, rr⟩ := trip
    rw [hc] at h
    cases rr with
    | some e =>
      simp only [Option.some.injEq, Prod.mk.injEq] at h
      obtain ⟨hE, -⟩ := h
      rw [← hE] at hj
      simp only [List.mem_cons] at hj
      rcases hj with hj | hj
      · cases hj
      · exact captureLoop_frame_elapsed env d fuel 0 evs n (some e) hc j hj
    | none =>
      simp only [Option.some.injEq, Prod.mk.injEq] at h
      obtain ⟨hE, -⟩ := h
      rw [← hE] at hj
      simp only [List.mem_cons, List.mem_append] at hj
      rcases hj with hj | (hj | hj) | hj
      · cases hj
      · exact captureLoop_frame_elapsed env d fuel 0 evs n none hc j hj
      · simp [postLoopEvents] at hj
      · exact absurd hj (mergeStep_no_frame menv tv ta fo j)

/-! ## Theorems for the claims -/

/-- C10: `reset_app` sets the page back to 1 and clears the captured video
path and the selected input method, while leaving the selected target
language name and target language code unchanged. -/
theorem reset_app_resets_page_clears_media_keeps_language
    (s : SessionState) :
    (reset_app s).page = 1 ∧
    (reset_app s).video_path = none ∧
    (reset_app s).input_method = none ∧
    (reset_app s).target_lang = s.target_lang ∧
    (reset_app s).target_lang_code = s.target_lang_code := by
  refine ⟨rfl, rfl, rfl, rfl, rfl⟩

/-- C5: with an absent (`None`) or empty media path, the ANALYZE handler
emits only the warning `"Please provide a video first."`, produces no
result, and invokes none of the three collaborators (the trace contains
zero collaborator-call events). -/
theorem analyze_rejects_missing_input {α : Type} (visual : String → α)
    (decode : String → String) (translate : String → String → String)
    (targetLang code : String) :
    analyzeHandler visual decode translate none targetLang code =
      ([AnalyzeEvent.warn "Please provide a video first."], none) ∧
    analyzeHandler visual decode translate (some "") targetLang code =
      ([AnalyzeEvent.warn "Please provide a video first."], none) ∧
    ((analyzeHandler visual decode translate none targetLang code).1.filter
        (fun e => isCollaboratorCall e)) = [] ∧
    ((analyzeHandler visual decode translate (some "") targetLang
        code).1.filter (fun e => isCollaboratorCall e)) = [] := by
  refine ⟨rfl, rfl, rfl, rfl⟩

/-- C6: the visual collaborator's return value has no effect on the
handler: two runs differing only in the visual collaborator produce the
same event trace and the same `(raw transcript, translated text)` result. -/
theorem visual_output_noninterference {α β : Type}
    (visual₁ : String → α) (visual₂ : String → β)
    (decode : String → String) (translate : String → String → String)
    (videoPath : Option String) (targetLang code : String) :
    analyzeHandler visual₁ decode translate videoPath targetLang code =
      analyzeHandler visual₂ decode translate videoPath targetLang code := by
  cases videoPath with
  | none => rfl
  | some p =>
    by_cases hp : p = "" <;> simp [analyzeHandler, analyzeRun, hp]

/-- C1: for every non-empty media path and language code, the handler runs
the stages in order Initializing, ExtractingVisualFeatures, DecodingSpeech,
Translating, Complete (the trace below), emits progress percentages
0, 40, 70, 90, 100 in that order and each exactly once, and the displayed
translated text is the translation collaborator applied to the decoder's
output and the selected language code. -/
theorem analyze_stage_order_and_result {α : Type} (visual : String → α)
    (decode : String → String) (translate : String → String → String)
    (p targetLang code : String) (hp : p ≠ "") :
    analyzeHandler visual decode translate (some p) targetLang code =
      ([AnalyzeEvent.progress 0 "Initializing 3D-CNN Pipeline...",
        AnalyzeEvent.callVisual p,
        AnalyzeEvent.progress 40 "Extracting Lip Landmarks & Geometry...",
        AnalyzeEvent.progress 70 "Mapping Spatiotemporal Features...",
        AnalyzeEvent.callDecode p,
        AnalyzeEvent.progress 90 ("Translating to " ++ targetLang ++ "..."),
        AnalyzeEvent.callTranslate (decode p) code,
        AnalyzeEvent.progress 100 "Complete!",
        AnalyzeEvent.barEmpty,
        AnalyzeEvent.showResult (translate (decode p) code) (decode p)],
       some (decode p, translate (decode p) code)) ∧
    ((analyzeHandler visual decode translate (some p) targetLang
        code).1.filterMap progressOf) =
      [(0, "Initializing 3D-CNN Pipeline..."),
       (40, "Extracting Lip Landmarks & Geometry..."),
       (70, "Mapping Spatiotemporal Features..."),
       (90, "Translating to " ++ targetLang ++ "..."),
       (100, "Complete!")] := by
  refine ⟨analyzeHandler_some visual decode translate p targetLang code hp, ?_⟩
  rw [analyzeHandler_some visual decode translate p targetLang code hp]
  simp [progressOf]

/-- C2: every exception raised by a MoviePy open/attach/encode/close call
in the merge try-body is caught: the error is reported via `st.error` and
the raw silent-video path is returned; the merge step's result is always
either the merged output path or the raw video path, never a propagated
exception. -/
theorem merge_exceptions_all_caught (menv : MuxEnv) (tv ta fo : String) :
    ((∃ evs, mergeTryBody menv tv ta fo = Except.ok (evs, fo)) ∨
      (∃ e, mergeTryBody menv tv ta fo = Except.error e)) ∧
    (∀ e, mergeTryBody menv tv ta fo = Except.error e →
      mergeStep menv tv ta fo =
        ([CapEvent.uiError ("Merge Error: " ++ e)], tv)) ∧
    ((mergeStep menv tv ta fo).2 = fo ∨ (mergeStep menv tv ta fo).2 = tv) := by
  refine ⟨?_, ?_, ?_⟩
  · cases h : mergeTryBody menv tv ta fo with
    | error e => exact Or.inr ⟨e, rfl⟩
    | ok v =>
      obtain ⟨evs, p⟩ := v
      obtain ⟨hp, -⟩ := mergeTryBody_ok_shape menv tv ta fo evs p h
      exact Or.inl ⟨evs, by rw [hp]⟩
  · intro e he
    unfold mergeStep
    rw [he]
  · unfold mergeStep
    cases h : mergeTryBody menv tv ta fo with
    | error e => exact Or.inr rfl
    | ok v =>
      obtain ⟨evs, p⟩ := v
      obtain ⟨hp, -⟩ := mergeTryBody_ok_shape menv tv ta fo evs p h
      exact Or.inl hp

/-- C2 witness: with a failing `write_videofile`, the merge step reports
the error and falls back to the raw video path. -/
theorem merge_exceptions_all_caught_witness :
    mergeStep muxFailEncode "v.mp4" "a.wav" "f.mp4" =
      ([CapEvent.uiError ("Merge Error: " ++ "boom")], "v.mp4") :=
  (merge_exceptions_all_caught muxFailEncode "v.mp4" "a.wav"
    "f.mp4").2.1 "boom" rfl

/-- C3 (amended): every captured frame was read at an elapsed time below
the duration (so the captured span is at most the duration); the audio
buffer holds `int(duration * 44100)` samples, i.e. the floor of
`duration × 44100` — which is at most `duration × 44100` and equals it
exactly whenever `duration × 44100` is an integer (in particular for every
positive integer duration), but not for every positive rational
duration. -/
theorem capture_span_and_audio_sample_count (env : CaptureEnv)
    (menv : MuxEnv) (d : ℚ) (fuel : Nat) (tv ta fo : String)
    (E : List CapEvent) (r : Except String String) (hd : 0 < d)
    (h : record_av_segment env menv d fuel tv ta fo = some (E, r)) :
    (∀ k, CapEvent.frameWritten k ∈ E → env.elapsed k < d) ∧
    CapEvent.audioStarted (audioSampleCount d) ∈ E ∧
    ((audioSampleCount d : ℚ) ≤ d * (sampleRate : ℚ)) ∧
    (∀ m : ℤ, d * (sampleRate : ℚ) = (m : ℚ) →
      (audioSampleCount d : ℚ) = d * (sampleRate : ℚ)) := by
  have h0 : (0 : ℚ) ≤ d * (sampleRate : ℚ) := by positivity
  have hfl : (0 : ℤ) ≤ Int.floor (d * (sampleRate : ℚ)) :=
    Int.floor_nonneg.mpr h0
  refine ⟨fun k hk =>
    (record_frame_elapsed env menv d fuel tv ta fo E r h k hk).1, ?_, ?_, ?_⟩
  · unfold record_av_segment at h
    cases hc : captureLoop env d fuel 0 with
    | none => rw [hc] at h; cases h
    | some trip =>
      obtain ⟨evs, n, rr⟩ := trip
      rw [hc] at h
      cases rr <;> simp only [Option.some.injEq, Prod.mk.injEq] at h <;>
        rw [← h.1] <;> exact List.mem_cons_self _ _
  · have h1 : ((Int.floor (d * (sampleRate : ℚ))).toNat : ℤ) =
        Int.floor (d * (sampleRate : ℚ)) := Int.toNat_of_nonneg hfl
    have h2 : (((Int.floor (d * (sampleRate : ℚ))).toNat : ℤ) : ℚ) ≤
        d * (sampleRate : ℚ) := by
      rw [h1]; exact Int.floor_le _
    unfold audioSampleCount
    exact_mod_cast h2
  · intro m hm
    have hm' : (0 : ℤ) ≤ m := by exact_mod_cast h0.trans_eq hm
    unfold audioSampleCount
    rw [hm, Int.floor_intCast]
    exact_mod_cast congrArg (fun z : ℤ => (z : ℚ)) (Int.toNat_of_nonneg hm')

/-- C3 witness: the amended theorem applied to a concrete terminating run
with duration 60. -/
theorem capture_span_and_audio_sample_count_witness :
    (0 : ℚ) < 60 ∧
    ((∀ k, CapEvent.frameWritten k ∈
        (CapEvent.audioStarted (audioSampleCount 60) ::
          ([CapEvent.frameWritten 0, CapEvent.previewShown 0,
            CapEvent.frameWritten 1, CapEvent.previewShown 1] ++
            postLoopEvents "a.wav" 60 ++
            (mergeStep muxAllOk "v.mp4" "a.wav" "f.mp4").1)) →
        envSteady.elapsed k < 60) ∧
      CapEvent.audioStarted (audioSampleCount 60) ∈
        (CapEvent.audioStarted (audioSampleCount 60) ::
          ([CapEvent.frameWritten 0, CapEvent.previewShown 0,
            CapEvent.frameWritten 1, CapEvent.previewShown 1] ++
            postLoopEvents "a.wav" 60 ++
            (mergeStep muxAllOk "v.mp4" "a.wav" "f.mp4").1)) ∧
      ((audioSampleCount 60 : ℚ) ≤ 60 * (sampleRate : ℚ)) ∧
      (∀ m : ℤ, (60 : ℚ) * (sampleRate : ℚ) = (m : ℚ) →
        (audioSampleCount 60 : ℚ) = 60 * (sampleRate : ℚ))) :=
  ⟨by decide,
   capture_span_and_audio_sample_count envSteady muxAllOk 60 3 "v.mp4"
     "a.wav" "f.mp4" _ (Except.ok ((mergeStep muxAllOk "v.mp4" "a.wav"
       "f.mp4").2)) (by decide) rfl⟩

/-- C3 counterexample: for the positive duration `1/100000` the requested
audio sample count is `int(1/100000 * 44100) = 0`, which differs from
`1/100000 × 44100 = 0.441` — the sample count is not exactly
`duration × sample_rate` for every positive duration. -/
theorem audio_sample_count_not_exact :
    (0 : ℚ) < tinyDuration ∧
    record_av_segment envSteady muxAllOk tinyDuration 2 "v.mp4" "a.wav"
        "f.mp4" =
      some (CapEvent.audioStarted (audioSampleCount tinyDuration) ::
              ([CapEvent.frameWritten 0, CapEvent.previewShown 0] ++
                postLoopEvents "a.wav" tinyDuration ++
                (mergeStep muxAllOk "v.mp4" "a.wav" "f.mp4").1),
            Except.ok ((mergeStep muxAllOk "v.mp4" "a.wav" "f.mp4").2)) ∧
    (audioSampleCount tinyDuration : ℚ) ≠
      tinyDuration * (sampleRate : ℚ) := by
  have ht : tinyDuration = 1 / 100000 := by
    rw [tinyDuration, Rat.mk'_eq_divInt]
    norm_num [Rat.divInt_eq_div]
  refine ⟨by decide, rfl, ?_⟩
  have hf : Int.floor (tinyDuration * (sampleRate : ℚ)) = 0 := by
    rw [ht, Int.floor_eq_zero_iff]
    constructor <;> norm_num [sampleRate]
  rw [show audioSampleCount tinyDuration = 0 by
    unfold audioSampleCount; rw [hf]; rfl]
  rw [ht]
  norm_num [sampleRate]

/-- C9: the live-input branch records with `duration=60`: live capture is
exactly `record_av_segment` at 60 seconds, every captured frame's elapsed
time is below 60 seconds, and 60 seconds is not the 2 minutes (120
seconds) the adjacent UI text announces. -/
theorem live_capture_duration_is_60 (env : CaptureEnv) (menv : MuxEnv)
    (fuel : Nat) (tv ta fo : String) (E : List CapEvent)
    (r : Except String String)
    (h : liveStartRecording env menv fuel tv ta fo = some (E, r)) :
    liveStartRecording env menv fuel tv ta fo =
      record_av_segment env menv 60 fuel tv ta fo ∧
    liveBranchInfoText = "Records for 2 MINUTES." ∧
    (60 : ℚ) ≠ 2 * 60 ∧
    (∀ k, CapEvent.frameWritten k ∈ E → env.elapsed k < 60) := by
  refine ⟨rfl, rfl, by norm_num, ?_⟩
  intro k hk
  exact (record_frame_elapsed env menv 60 fuel tv ta fo E r h k hk).1

/-- C9 witness: the live-duration theorem applied to a concrete
terminating run. -/
theorem live_capture_duration_is_60_witness :
    liveStartRecording envSteady muxAllOk 3 "v.mp4" "a.wav" "f.mp4" =
      record_av_segment envSteady muxAllOk 60 3 "v.mp4" "a.wav" "f.mp4" ∧
    liveBranchInfoText = "Records for 2 MINUTES." ∧
    (60 : ℚ) ≠ 2 * 60 ∧
    (∀ k, CapEvent.frameWritten k ∈
        (CapEvent.audioStarted (audioSampleCount 60) ::
          ([CapEvent.frameWritten 0, CapEvent.previewShown 0,
            CapEvent.frameWritten 1, CapEvent.previewShown 1] ++
            postLoopEvents "a.wav" 60 ++
            (mergeStep muxAllOk "v.mp4" "a.wav" "f.mp4").1)) →
      envSteady.elapsed k < 60) :=
  live_capture_duration_is_60 envSteady muxAllOk 3 "v.mp4" "a.wav" "f.mp4"
    _ (Except.ok ((mergeStep muxAllOk "v.mp4" "a.wav" "f.mp4").2)) rfl

/-- C1 witness: the stage-order theorem applied at a concrete non-empty
path, concrete collaborators and the language `"en"`. -/
theorem analyze_stage_order_and_result_witness :
    ("v.mp4" : String) ≠ "" ∧
    (analyzeHandler (fun _ => ()) (fun _ => "hello")
        (fun t c => t ++ "|" ++ c) (some "v.mp4") "English" "en").2 =
      some ("hello", "hello|en") := by
  refine ⟨by decide, ?_⟩
  have h := analyze_stage_order_and_result (fun _ => ()) (fun _ => "hello")
    (fun t c => t ++ "|" ++ c) "v.mp4" "English" "en" (by decide)
  rw [h.1]
  rfl

/-- C4 (amended): if the `n`-th frame read fails (`ret` is `False`) at an
elapsed time below the duration while every earlier iteration succeeded,
the loop terminates early at iteration `n`; exactly frames `0..n-1` are
persisted and returned, the full-duration audio buffer is still written,
the camera is released and the routine returns normally via the merge
step — but no error or warning is signaled for the read failure: the only
possible error events in the trace are the merge step's own. -/
theorem read_failure_keeps_partial_video_and_full_audio (env : CaptureEnv)
    (menv : MuxEnv) (d : ℚ) (n fuel : Nat) (tv ta fo : String)
    (hn : env.readOk n = false) (_ht : env.elapsed n < d)
    (hprev : ∀ j, j < n →
      env.elapsed j < d ∧ env.readOk j = true ∧
        env.preview j = Except.ok ())
    (hfuel : n < fuel) :
    ∃ E, record_av_segment env menv d fuel tv ta fo =
        some (E, Except.ok ((mergeStep menv tv ta fo).2)) ∧
      (∀ j, CapEvent.frameWritten j ∈ E ↔ j < n) ∧
      CapEvent.wavWritten ta (audioSampleCount d) ∈ E ∧
      CapEvent.camReleased ∈ E ∧
      E.filter isErrorEvent =
        (mergeStep menv tv ta fo).1.filter isErrorEvent := by
  have hloop := captureLoop_run env d n (Or.inl hn) hprev fuel 0
    (Nat.zero_le n) (by omega)
  rw [Nat.sub_zero] at hloop
  refine ⟨CapEvent.audioStarted (audioSampleCount d) ::
    (loopTrace 0 n ++ postLoopEvents ta d ++ (mergeStep menv tv ta fo).1),
    ?_, ?_, ?_, ?_, ?_⟩
  · unfold record_av_segment
    rw [hloop]
  · intro j
    simp only [List.mem_cons, List.mem_append]
    constructor
    · rintro (hj | (hj | hj) | hj)
      · cases hj
      · have := (loopTrace_frame_mem n 0 j).mp hj
        omega
      · simp [postLoopEvents] at hj
      · exact absurd hj (mergeStep_no_frame menv tv ta fo j)
    · intro hj
      exact Or.inr (Or.inl (Or.inl
        ((loopTrace_frame_mem n 0 j).mpr ⟨Nat.zero_le j, by omega⟩)))
  · simp [postLoopEvents]
  · simp [postLoopEvents]
  · simp [List.filter_append, loopTrace_filter_error n 0, postLoopEvents,
      isErrorEvent]

/-- C4 witness: the early-termination theorem applied to a run whose third
read fails at elapsed time 0 with duration 60. -/
theorem read_failure_keeps_partial_video_and_full_audio_witness :
    envReadFail2.readOk 2 = false ∧
    envReadFail2.elapsed 2 < 60 ∧
    (∀ j, j < 2 →
      envReadFail2.elapsed j < (60 : ℚ) ∧ envReadFail2.readOk j = true ∧
        envReadFail2.preview j = Except.ok ()) ∧
    (∃ E, record_av_segment envReadFail2 muxAllOk 60 3 "v.mp4" "a.wav"
          "f.mp4" =
        some (E, Except.ok ((mergeStep muxAllOk "v.mp4" "a.wav"
          "f.mp4").2)) ∧
      (∀ j, CapEvent.frameWritten j ∈ E ↔ j < 2) ∧
      CapEvent.wavWritten "a.wav" (audioSampleCount 60) ∈ E ∧
      CapEvent.camReleased ∈ E ∧
      E.filter isErrorEvent =
        (mergeStep muxAllOk "v.mp4" "a.wav" "f.mp4").1.filter
          isErrorEvent) :=
  ⟨by decide, by decide, by decide,
   read_failure_keeps_partial_video_and_full_audio envReadFail2 muxAllOk 60
     2 3 "v.mp4" "a.wav" "f.mp4" (by decide) (by decide) (by decide)
     (by decide)⟩

/-- C4 counterexample: a frame read fails at iteration 0 (elapsed time 0,
below the duration 60), yet the emitted trace contains no error or warning
event at all — no `DeviceReadError` condition is signaled anywhere; the
failure is silent. -/
theorem read_failure_is_silent :
    envReadFail0.readOk 0 = false ∧
    envReadFail0.elapsed 0 < 60 ∧
    record_av_segment envReadFail0 muxAllOk 60 1 "v.mp4" "a.wav" "f.mp4" =
      some (CapEvent.audioStarted (audioSampleCount 60) ::
              (postLoopEvents "a.wav" 60 ++
                [CapEvent.removed "v.mp4", CapEvent.removed "a.wav"]),
            Except.ok "f.mp4") ∧
    (CapEvent.audioStarted (audioSampleCount 60) ::
        (postLoopEvents "a.wav" 60 ++
          [CapEvent.removed "v.mp4", CapEvent.removed "a.wav"])).filter
        isErrorEvent = [] := by
  refine ⟨by decide, by decide, rfl, rfl⟩

/-- C7 counterexample: in a concrete run, the visual collaborator is
called strictly before the progress event whose label
(`"Extracting Lip Landmarks & Geometry..."`, 40%) describes the visual
stage's work, and never after it — so that stage's label is emitted after
the stage's work, not before. -/
theorem visual_label_emitted_after_visual_work :
    occursBefore ((analyzeHandler (fun _ : String => ()) (fun _ => "hello")
        (fun t c => t ++ "|" ++ c) (some "v.mp4") "English" "en").1)
      (AnalyzeEvent.callVisual "v.mp4")
      (AnalyzeEvent.progress 40 "Extracting Lip Landmarks & Geometry...") ∧
    ¬ occursBefore ((analyzeHandler (fun _ : String => ())
        (fun _ => "hello") (fun t c => t ++ "|" ++ c) (some "v.mp4")
        "English" "en").1)
      (AnalyzeEvent.progress 40 "Extracting Lip Landmarks & Geometry...")
      (AnalyzeEvent.callVisual "v.mp4") := by
  constructor <;> decide

/-- C7 (amended): exactly one progress event is emitted per stage
transition (five in total); the labels for the DecodingSpeech and
Translating stages are emitted before those stages' work, but the label
describing the ExtractingVisualFeatures stage's work is emitted after the
visual collaborator has already been called. -/
theorem progress_label_work_ordering {α : Type} (visual : String → α)
    (decode : String → String) (translate : String → String → String)
    (p targetLang code : String) (hp : p ≠ "") :
    ((analyzeHandler visual decode translate (some p) targetLang
        code).1.filterMap progressOf).length = 5 ∧
    occursBefore (analyzeHandler visual decode translate (some p)
        targetLang code).1
      (AnalyzeEvent.progress 70 "Mapping Spatiotemporal Features...")
      (AnalyzeEvent.callDecode p) ∧
    occursBefore (analyzeHandler visual decode translate (some p)
        targetLang code).1
      (AnalyzeEvent.progress 90 ("Translating to " ++ targetLang ++ "..."))
      (AnalyzeEvent.callTranslate (decode p) code) ∧
    occursBefore (analyzeHandler visual decode translate (some p)
        targetLang code).1
      (AnalyzeEvent.callVisual p)
      (AnalyzeEvent.progress 40
        "Extracting Lip Landmarks & Geometry...") := by
  rw [analyzeHandler_some visual decode translate p targetLang code hp]
  refine ⟨by simp [progressOf], ?_, ?_, ?_⟩
  · exact ⟨⟨3, by show (3 : Nat) < 10; norm_num⟩,
      ⟨4, by show (4 : Nat) < 10; norm_num⟩,
      by show (3 : Nat) < 4; norm_num, rfl, rfl⟩
  · exact ⟨⟨5, by show (5 : Nat) < 10; norm_num⟩,
      ⟨6, by show (6 : Nat) < 10; norm_num⟩,
      by show (5 : Nat) < 6; norm_num, rfl, rfl⟩
  · exact ⟨⟨1, by show (1 : Nat) < 10; norm_num⟩,
      ⟨2, by show (2 : Nat) < 10; norm_num⟩,
      by show (1 : Nat) < 2; norm_num, rfl, rfl⟩

/-- C7 amended-claim witness: the ordering theorem applied at a concrete
non-empty path and concrete collaborators. -/
theorem progress_label_work_ordering_witness :
    ("v.mp4" : String) ≠ "" ∧
    (((analyzeHandler (fun _ : String => ()) (fun _ => "hello")
        (fun t c => t ++ "|" ++ c) (some "v.mp4") "English"
        "en").1.filterMap progressOf).length = 5 ∧
    occursBefore (analyzeHandler (fun _ : String => ()) (fun _ => "hello")
        (fun t c => t ++ "|" ++ c) (some "v.mp4") "English" "en").1
      (AnalyzeEvent.progress 70 "Mapping Spatiotemporal Features...")
      (AnalyzeEvent.callDecode "v.mp4") ∧
    occursBefore (analyzeHandler (fun _ : String => ()) (fun _ => "hello")
        (fun t c => t ++ "|" ++ c) (some "v.mp4") "English" "en").1
      (AnalyzeEvent.progress 90 ("Translating to " ++ "English" ++ "..."))
      (AnalyzeEvent.callTranslate "hello" "en") ∧
    occursBefore (analyzeHandler (fun _ : String => ()) (fun _ => "hello")
        (fun t c => t ++ "|" ++ c) (some "v.mp4") "English" "en").1
      (AnalyzeEvent.callVisual "v.mp4")
      (AnalyzeEvent.progress 40
        "Extracting Lip Landmarks & Geometry...")) :=
  ⟨by decide,
   progress_label_work_ordering (fun _ : String => ()) (fun _ => "hello")
     (fun t c => t ++ "|" ++ c) "v.mp4" "English" "en" (by decide)⟩

/-- C8 (amended): on both non-exceptional exit paths of the capture
routine — normal loop completion and the early `break` from a failed frame
read — the camera handle is released, the video writer is released, and
the audio task is joined before the routine returns.  (The exceptional
path, where a call inside the loop body raises, skips all three: see the
counterexample.) -/
theorem resources_released_on_normal_exit (env : CaptureEnv)
    (menv : MuxEnv) (d : ℚ) (fuel : Nat) (tv ta fo : String)
    (E : List CapEvent) (p : String)
    (h : record_av_segment env menv d fuel tv ta fo =
      some (E, Except.ok p)) :
    CapEvent.camReleased ∈ E ∧ CapEvent.writerReleased ∈ E ∧
      CapEvent.audioWaited ∈ E := by
  obtain ⟨evs, n, -, hE, -⟩ := record_ok_spec env menv d fuel tv ta fo E p h
  subst hE
  simp [postLoopEvents, List.mem_append]

/-- C8 witness: the release theorem applied to a concrete normally
terminating run. -/
theorem resources_released_on_normal_exit_witness :
    CapEvent.camReleased ∈
      (CapEvent.audioStarted (audioSampleCount 60) ::
        ([CapEvent.frameWritten 0, CapEvent.previewShown 0,
          CapEvent.frameWritten 1, CapEvent.previewShown 1] ++
          postLoopEvents "a.wav" 60 ++
          (mergeStep muxAllOk "v.mp4" "a.wav" "f.mp4").1)) ∧
    CapEvent.writerReleased ∈
      (CapEvent.audioStarted (audioSampleCount 60) ::
        ([CapEvent.frameWritten 0, CapEvent.previewShown 0,
          CapEvent.frameWritten 1, CapEvent.previewShown 1] ++
          postLoopEvents "a.wav" 60 ++
          (mergeStep muxAllOk "v.mp4" "a.wav" "f.mp4").1)) ∧
    CapEvent.audioWaited ∈
      (CapEvent.audioStarted (audioSampleCount 60) ::
        ([CapEvent.frameWritten 0, CapEvent.previewShown 0,
          CapEvent.frameWritten 1, CapEvent.previewShown 1] ++
          postLoopEvents "a.wav" 60 ++
          (mergeStep muxAllOk "v.mp4" "a.wav" "f.mp4").1)) :=
  resources_released_on_normal_exit envSteady muxAllOk 60 3 "v.mp4"
    "a.wav" "f.mp4" _ ((mergeStep muxAllOk "v.mp4" "a.wav" "f.mp4").2) rfl

/-- C8 counterexample: when the preview render inside the loop body raises
an exception, `record_av_segment` propagates it and returns without
releasing the camera, without releasing the writer, and without joining
the audio task — resource release is not guaranteed on every exit path. -/
theorem release_skipped_on_loop_exception :
    record_av_segment envPreviewRaise muxAllOk 60 1 "v.mp4" "a.wav"
        "f.mp4" =
      some ([CapEvent.audioStarted (audioSampleCount 60),
             CapEvent.frameWritten 0], Except.error "boom") ∧
    CapEvent.camReleased ∉
      [CapEvent.audioStarted (audioSampleCount 60),
       CapEvent.frameWritten 0] ∧
    CapEvent.writerReleased ∉
      [CapEvent.audioStarted (audioSampleCount 60),
       CapEvent.frameWritten 0] ∧
    CapEvent.audioWaited ∉
      [CapEvent.audioStarted (audioSampleCount 60),
       CapEvent.frameWritten 0] := by
  refine ⟨rfl, ?_, ?_, ?_⟩ <;> simp

end LipDecoder
